import Mathlib

/-!
Verification of the attack-simulation state engine of the IoT security
demo (sources: `src/hooks/useAttackMap.js`, `src/context/SimulationContext.jsx`,
`src/data/attacks.js`, `src/data/devices.js`, `src/utils/helpers.js`).

The engine is a single-threaded state machine.  We embed its state shape and
its four actions (`startAttack`, `stopAttack`, `toggleProtocol`, `clearEvents`)
as pure Lean functions; every source of nondeterminism (the uniform index
draw inside `randomElement`, the ids produced by `generateId`, the wall
clock) is passed in as an explicit argument, so one call of an action in
JavaScript corresponds to one application of the matching Lean function at
some choice of those arguments.  Timestamps are integers (milliseconds), as
produced by `Date.now()`.
-/

namespace IotSim

/-! ## Static registries (`src/data/attacks.js`, `src/data/devices.js`) -/

namespace ATTACK_TYPES

def BRUTE_FORCE : String := "brute_force"

def MITM : String := "man_in_the_middle"

def UNAUTHORIZED_ACCESS : String := "unauthorized_access"

def DOS : String := "denial_of_service"

def REPLAY : String := "replay_attack"

def FIRMWARE_EXPLOIT : String := "firmware_exploit"

end ATTACK_TYPES

/-- One entry of the static attack-type registry (`attackDefinitions`). -/
structure AttackDefinition where
  id : String
  name : String
  shortName : String
  description : String
  targetDevices : List String
  severity : String
  color : String
  protocolBlock : String
  mitreTactic : String
deriving DecidableEq, Repr

/-- The static attack-type registry from `src/data/attacks.js`. -/
def attackDefinitions : List AttackDefinition := [
  { id := ATTACK_TYPES.BRUTE_FORCE,
    name := "Brute Force Attack",
    shortName := "Brute Force",
    description := "Automated password guessing against device authentication.",
    targetDevices := ["camera-01", "lock-01", "router-01"],
    severity := "high",
    color := "#ff3366",
    protocolBlock := "Authentication layer blocks after 3 failed attempts and triggers alert.",
    mitreTactic := "Credential Access (T1110)" },
  { id := ATTACK_TYPES.MITM,
    name := "Man-in-the-Middle",
    shortName := "MITM",
    description := "Attacker intercepts communication between IoT device and hub.",
    targetDevices := ["thermostat-01", "camera-01", "router-01"],
    severity := "critical",
    color := "#ff0044",
    protocolBlock := "Encrypted tunnel with mutual TLS prevents interception.",
    mitreTactic := "Collection (T1557)" },
  { id := ATTACK_TYPES.UNAUTHORIZED_ACCESS,
    name := "Unauthorized Access",
    shortName := "Unauth Access",
    description := "Exploiting default credentials or API weaknesses.",
    targetDevices := ["lock-01", "light-01", "thermostat-01"],
    severity := "high",
    color := "#ff6600",
    protocolBlock := "Multi-factor device authentication and RBAC deny unauthorized requests.",
    mitreTactic := "Initial Access (T1078)" },
  { id := ATTACK_TYPES.DOS,
    name := "Denial of Service",
    shortName := "DoS",
    description := "Flooding device with requests to make it unresponsive.",
    targetDevices := ["router-01", "camera-01"],
    severity := "medium",
    color := "#ff9900",
    protocolBlock := "Rate limiting and traffic analysis detect anomalous patterns.",
    mitreTactic := "Impact (T1499)" },
  { id := ATTACK_TYPES.REPLAY,
    name := "Replay Attack",
    shortName := "Replay",
    description := "Capturing and retransmitting valid commands.",
    targetDevices := ["lock-01", "light-01"],
    severity := "high",
    color := "#cc3399",
    protocolBlock := "Nonce-based message authentication ensures each command is unique.",
    mitreTactic := "Credential Access (T1040)" },
  { id := ATTACK_TYPES.FIRMWARE_EXPLOIT,
    name := "Firmware Exploit",
    shortName := "Firmware",
    description := "Exploiting vulnerabilities in outdated device firmware.",
    targetDevices := ["motion-01", "camera-01", "thermostat-01"],
    severity := "critical",
    color := "#ff0066",
    protocolBlock := "Secure boot chain and signed firmware updates prevent exploitation.",
    mitreTactic := "Execution (T1195)" }
]

/-- One entry of `attackOrigins` in `src/data/attacks.js`.  Coordinates and
weights are decimal literals in the source; we embed them as rationals. -/
structure AttackOrigin where
  country : String
  lat : ℚ
  lng : ℚ
  weight : ℚ
deriving DecidableEq, Repr

/-- The static geographic origin registry from `src/data/attacks.js`. -/
def attackOrigins : List AttackOrigin := [
  { country := "China", lat := mkRat 399 10, lng := mkRat 1164 10, weight := mkRat 25 100 },
  { country := "Russia", lat := mkRat 5575 100, lng := mkRat 3762 100, weight := mkRat 20 100 },
  { country := "USA", lat := mkRat 389 10, lng := mkRat (-7704) 100, weight := mkRat 10 100 },
  { country := "Brazil", lat := mkRat (-158) 10, lng := mkRat (-479) 10, weight := mkRat 8 100 },
  { country := "India", lat := mkRat 286 10, lng := mkRat 772 10, weight := mkRat 7 100 },
  { country := "Iran", lat := mkRat 357 10, lng := mkRat 514 10, weight := mkRat 6 100 },
  { country := "North Korea", lat := mkRat 390 10, lng := mkRat 1258 10, weight := mkRat 5 100 },
  { country := "Nigeria", lat := mkRat 906 100, lng := mkRat 749 100, weight := mkRat 4 100 },
  { country := "Vietnam", lat := mkRat 2103 100, lng := mkRat 10585 100, weight := mkRat 4 100 },
  { country := "Turkey", lat := mkRat 3993 100, lng := mkRat 3286 100, weight := mkRat 3 100 },
  { country := "Germany", lat := mkRat 5252 100, lng := mkRat 1341 100, weight := mkRat 3 100 },
  { country := "Romania", lat := mkRat 4443 100, lng := mkRat 261 10, weight := mkRat 3 100 },
  { country := "Ukraine", lat := mkRat 5045 100, lng := mkRat 3052 100, weight := mkRat 2 100 }
]

namespace DEVICE_TYPES

def CAMERA : String := "camera"

def DOOR_LOCK : String := "door_lock"

def THERMOSTAT : String := "thermostat"

def MOTION_SENSOR : String := "motion_sensor"

def SMART_LIGHT : String := "smart_light"

def ROUTER : String := "router"

end DEVICE_TYPES

namespace STATUS

def SECURE : String := "secure"

def WARNING : String := "warning"

def COMPROMISED : String := "compromised"

end STATUS

/-- One static record of the device registry in `src/data/devices.js`. -/
structure DeviceInfo where
  id : String
  name : String
  type : String
  position : List ℚ
  description : String
  firmware : String
  protocol : String
  vulnerabilities : List String
  icon : String
deriving DecidableEq, Repr

/-- The static device registry from `src/data/devices.js`. -/
def devices : List DeviceInfo := [
  { id := "router-01",
    name := "Wi-Fi Router",
    type := DEVICE_TYPES.ROUTER,
    position := [0, mkRat 12 10, 0],
    description := "Central hub - routes all smart home traffic",
    firmware := "v3.2.1",
    protocol := "WPA3",
    vulnerabilities := ["Default credentials", "Open management port"],
    icon := "Wifi" },
  { id := "camera-01",
    name := "Smart Camera",
    type := DEVICE_TYPES.CAMERA,
    position := [mkRat 25 10, 2, mkRat 15 10],
    description := "IP surveillance camera - entrance monitoring",
    firmware := "v1.4.0",
    protocol := "RTSP",
    vulnerabilities := ["Unencrypted video stream", "Weak authentication"],
    icon := "Camera" },
  { id := "lock-01",
    name := "Smart Door Lock",
    type := DEVICE_TYPES.DOOR_LOCK,
    position := [3, 1, 0],
    description := "Electronic lock with remote access",
    firmware := "v2.1.0",
    protocol := "BLE/Zigbee",
    vulnerabilities := ["Replay attack vector", "BLE sniffing"],
    icon := "Lock" },
  { id := "thermostat-01",
    name := "Smart Thermostat",
    type := DEVICE_TYPES.THERMOSTAT,
    position := [mkRat (-2) 1, mkRat 15 10, 1],
    description := "Climate control with remote scheduling",
    firmware := "v1.8.3",
    protocol := "Z-Wave",
    vulnerabilities := ["Insecure API endpoint", "No certificate pinning"],
    icon := "Thermometer" },
  { id := "motion-01",
    name := "Motion Sensor",
    type := DEVICE_TYPES.MOTION_SENSOR,
    position := [0, mkRat 28 10, mkRat (-2) 1],
    description := "PIR motion detector for security system",
    firmware := "v1.0.2",
    protocol := "Zigbee",
    vulnerabilities := ["Signal jamming", "No tamper detection"],
    icon := "Activity" },
  { id := "light-01",
    name := "Smart Light",
    type := DEVICE_TYPES.SMART_LIGHT,
    position := [mkRat (-15) 10, mkRat 25 10, mkRat (-1) 1],
    description := "RGB smart bulb with scheduling",
    firmware := "v2.0.1",
    protocol := "Wi-Fi",
    vulnerabilities := ["Network enumeration via bulb", "Cleartext commands"],
    icon := "Lightbulb" }
]

/-! ## Engine state (`src/hooks/useAttackMap.js`, `useSimulation` section) -/

/-- Maximum number of entries kept in the event log (source constant). -/
def MAX_EVENTS : ℕ := 50

/-- A runtime device: the static registry record plus the mutable `status`
field added by `buildInitialDevices`. -/
structure Device extends DeviceInfo where
  status : String
deriving DecidableEq, Repr

/-- A runtime attack instance, as built inside `startAttack`. -/
structure Attack where
  id : String
  type : String
  name : String
  shortName : String
  severity : String
  color : String
  targetDeviceId : String
  blocked : Bool
  timestamp : Int
deriving DecidableEq, Repr

/-- One event-log entry, as built by the callers of `pushEvent`.  The
protocol-toggle events carry `targetDeviceId: null`, hence the `Option`. -/
structure Event where
  id : String
  timestamp : Int
  attackName : String
  attackType : String
  severity : String
  targetDeviceId : Option String
  blocked : Bool
  message : String
deriving DecidableEq, Repr

/-- The `stats` object of `useSimulation`. -/
structure Stats where
  totalAttacks : ℕ
  blockedAttacks : ℕ
  activeThreats : ℕ
  attacksPerMinute : ℕ
deriving DecidableEq, Repr

/-- The whole mutable state owned by `useSimulation`: the five `useState`
slots plus the `attackTimestamps` ref (the rolling rate window). -/
structure SimulationState where
  devices : List Device
  activeAttacks : List Attack
  protocolEnabled : Bool
  events : List Event
  stats : Stats
  attackTimestamps : List Int
deriving DecidableEq, Repr

/-- Source `buildInitialDevices`: enrich every registry device with a
runtime status of `secure`. -/
def buildInitialDevices : List Device :=
  devices.map (fun d => { toDeviceInfo := d, status := STATUS.SECURE })

/-- The state held immediately after `useSimulation` initialises, before any
action or timer callback has run. -/
def initialState : SimulationState :=
  { devices := buildInitialDevices,
    activeAttacks := [],
    protocolEnabled := true,
    events := [],
    stats := { totalAttacks := 0, blockedAttacks := 0, activeThreats := 0, attacksPerMinute := 0 },
    attackTimestamps := [] }

/-- Source `randomElement` from `src/utils/helpers.js`:
`return array[Math.floor(Math.random() * array.length)]`.  For a non-empty
array the draw `Math.floor(Math.random() * array.length)` is a uniformly
random in-range index, so we model it as an explicit index `pick` reduced
modulo the list length: every element is reachable by some `pick`, only
in-range indices occur, and the selection is exactly the uniform index
draw of the source.  For an empty array the source reads `undefined`; the
`getD` default plays that role and is never hit here because every
registry target pool is non-empty. -/
def randomElement (l : List String) (pick : ℕ) : String :=
  l.getD (pick % l.length) ""

/-- Source `pushEvent`: prepend the new entry and cap the log at
`MAX_EVENTS` (the JavaScript is `[event, ...prev].slice(0, MAX_EVENTS)`). -/
def pushEvent (event : Event) (events : List Event) : List Event :=
  (event :: events).take MAX_EVENTS

/-- Source `refreshStats`: recompute the stats record from an attack list,
the two running totals and the rolling timestamp window, pruning window
entries 60 seconds old or older.  Returns the stats together with the new
contents of the `attackTimestamps` ref.  (This helper is defined by the
source but the actions recompute their stats inline.) -/
def refreshStats (attacks : List Attack) (total totalBlocked : ℕ)
    (attackTimestamps : List Int) (now : Int) : Stats × List Int :=
  let kept := attackTimestamps.filter (fun t => now - t < 60000)
  ({ totalAttacks := total,
     blockedAttacks := totalBlocked,
     activeThreats := (attacks.filter (fun a => !a.blocked)).length,
     attacksPerMinute := kept.length }, kept)

/-- Source `startAttack`.  Nondeterministic inputs are explicit: `pick`
drives the uniform choice of target device, `attackId` and `eventId` stand
for the two `generateId()` calls, and `now` is the value of `Date.now()`
during this (synchronous) action.  An unknown `attackType` returns the
state unchanged, mirroring the early `return`. -/
def startAttack (s : SimulationState) (attackType : String) (pick : ℕ)
    (attackId eventId : String) (now : Int) : SimulationState :=
  match attackDefinitions.find? (fun a => a.id == attackType) with
  | none => s
  | some definition =>
    let targetDeviceId := randomElement definition.targetDevices pick
    let blocked := s.protocolEnabled
    let attack : Attack :=
      { id := attackId,
        type := definition.id,
        name := definition.name,
        shortName := definition.shortName,
        severity := definition.severity,
        color := definition.color,
        targetDeviceId := targetDeviceId,
        blocked := blocked,
        timestamp := now }
    let newDevices :=
      if blocked then s.devices
      else
        s.devices.map (fun d =>
          if d.id = targetDeviceId then
            { d with status :=
                if definition.severity = "critical" then STATUS.COMPROMISED
                else STATUS.WARNING }
          else d)
    let newEvents := pushEvent
      { id := eventId,
        timestamp := now,
        attackName := definition.name,
        attackType := definition.id,
        severity := definition.severity,
        targetDeviceId := some targetDeviceId,
        blocked := blocked,
        message :=
          if blocked then
            definition.shortName ++ " attack on " ++ targetDeviceId ++ " blocked by protocol."
          else
            definition.shortName ++ " attack on " ++ targetDeviceId ++ " succeeded!" }
      s.events
    let prunedWindow := (s.attackTimestamps ++ [now]).filter (fun t => t > now - 60000)
    { devices := newDevices,
      activeAttacks := s.activeAttacks ++ [attack],
      protocolEnabled := s.protocolEnabled,
      events := newEvents,
      stats :=
        { totalAttacks := s.stats.totalAttacks + 1,
          blockedAttacks := s.stats.blockedAttacks + (if blocked then 1 else 0),
          activeThreats :=
            if blocked then s.stats.activeThreats else s.stats.activeThreats + 1,
          attacksPerMinute := prunedWindow.length },
      attackTimestamps := prunedWindow }

/-- Source `stopAttack`.  Note that the source decrements
`stats.activeThreats` (floored at zero, via `Math.max`) outside the
not-found guard, so the stats update happens even when no attack carries
the given id; natural-number subtraction models the flooring exactly. -/
def stopAttack (s : SimulationState) (attackId : String) : SimulationState :=
  match s.activeAttacks.find? (fun a => a.id == attackId) with
  | none =>
    { s with stats := { s.stats with activeThreats := s.stats.activeThreats - 1 } }
  | some target =>
    let remaining := s.activeAttacks.filter (fun a => a.id != attackId)
    let stillTargeted :=
      remaining.any (fun a => a.targetDeviceId == target.targetDeviceId && !a.blocked)
    let newDevices :=
      if !target.blocked && !stillTargeted then
        s.devices.map (fun d =>
          if d.id = target.targetDeviceId then { d with status := STATUS.SECURE } else d)
      else
        s.devices
    { s with
      activeAttacks := remaining,
      devices := newDevices,
      stats := { s.stats with activeThreats := s.stats.activeThreats - 1 } }

/-- Source `toggleProtocol`.  `eventId` stands for `generateId()` and `now`
for `Date.now()` inside the logged event.  Turning the protocol on blocks
every active attack, heals every device and zeroes `activeThreats`;
turning it off only flips the flag and logs a warning event. -/
def toggleProtocol (s : SimulationState) (eventId : String) (now : Int) : SimulationState :=
  let next := !s.protocolEnabled
  if next then
    { devices := s.devices.map (fun d => { d with status := STATUS.SECURE }),
      activeAttacks := s.activeAttacks.map (fun a => { a with blocked := true }),
      protocolEnabled := next,
      events := pushEvent
        { id := eventId,
          timestamp := now,
          attackName := "Protocol",
          attackType := "system",
          severity := "info",
          targetDeviceId := none,
          blocked := false,
          message := "Security protocol ENABLED - all active threats neutralized." }
        s.events,
      stats :=
        { s.stats with
          activeThreats := 0,
          blockedAttacks := s.stats.blockedAttacks + s.stats.activeThreats },
      attackTimestamps := s.attackTimestamps }
  else
    { s with
      protocolEnabled := next,
      events := pushEvent
        { id := eventId,
          timestamp := now,
          attackName := "Protocol",
          attackType := "system",
          severity := "high",
          targetDeviceId := none,
          blocked := false,
          message := "Security protocol DISABLED - devices are now vulnerable." }
        s.events }

/-- Source `clearEvents`: empty the event log, touch nothing else. -/
def clearEvents (s : SimulationState) : SimulationState :=
  { s with events := [] }

/-- The states the engine can actually be in: the initial state, closed
under the four public actions at arbitrary nondeterministic inputs.  The
freshness side condition on `startAttack` models `generateId` from
`src/utils/helpers.js` (a fresh 16-hex-character random id per instance,
documented there as sufficient for client-side uniqueness, which the spec
in section 6 requires to be collision-resistant for the session): the ids
of live attack instances are taken pairwise distinct. -/
inductive Reachable : SimulationState → Prop where
  | init : Reachable initialState
  | start (s : SimulationState) (attackType : String) (pick : ℕ)
      (attackId eventId : String) (now : Int) (hs : Reachable s)
      (hfresh : ∀ a ∈ s.activeAttacks, a.id ≠ attackId) :
      Reachable (startAttack s attackType pick attackId eventId now)
  | stop (s : SimulationState) (attackId : String) (hs : Reachable s) :
      Reachable (stopAttack s attackId)
  | toggle (s : SimulationState) (eventId : String) (now : Int) (hs : Reachable s) :
      Reachable (toggleProtocol s eventId now)
  | clear (s : SimulationState) (hs : Reachable s) :
      Reachable (clearEvents s)

/-! ## The distribution layer (`src/context/SimulationContext.jsx`) -/

/-- Source `useSimulationContext`.  The react context holds `null` until a
provider publishes a value; we model the context cell as an `Option` and
the `throw` as the `error` branch of `Except`.  The message is the exact
string thrown by the source. -/
def useSimulationContext {α : Type} (context : Option α) : Except String α :=
  match context with
  | none =>
    Except.error "useSimulationContext must be used within a <SimulationProvider>. Wrap your component tree with <Layout> or <SimulationProvider>."
  | some value => Except.ok value

/-! ## The roulette draw of the map feed (`weightedRandomOrigin`) -/

/-- The `for` loop of the source `weightedRandomOrigin`: subtract each
weight from the running roll and stop at the first origin that brings the
roll to zero or below; `none` when the loop falls through. -/
def rouletteLoop : List AttackOrigin → ℚ → Option AttackOrigin
  | [], _ => none
  | o :: rest, roll => if roll - o.weight ≤ 0 then some o else rouletteLoop rest (roll - o.weight)

/-- Source `weightedRandomOrigin`.  The call `Math.random() * totalWeight`
is modelled as `r * totalWeight` with `r` the random draw from `[0, 1)`.
On fall-through the source returns `origins[origins.length - 1]`, which is
`undefined` (here `none`) for an empty list. -/
def weightedRandomOrigin (origins : List AttackOrigin) (r : ℚ) : Option AttackOrigin :=
  let totalWeight := (origins.map AttackOrigin.weight).sum
  match rouletteLoop origins (r * totalWeight) with
  | some origin => some origin
  | none => origins.getLast?

/-- Index form of the roulette loop over the bare weight list: the number
of weights consumed before the first one that brings the roll to zero or
below (equals the list length when the loop falls through). -/
def rouletteIdx : List ℚ → ℚ → ℕ
  | [], _ => 0
  | w :: ws, roll => if roll - w ≤ 0 then 0 else rouletteIdx ws (roll - w) + 1

/-- The cumulative weights of a weight list: entry `i` is the sum of the
weights up to and including index `i`. -/
def cumWeights (ws : List ℚ) : List ℚ :=
  (List.range ws.length).map (fun i => (ws.take (i + 1)).sum)

/-- The selection rule in the words of the specification: the first index
`i` such that the scaled roll is at most the cumulative weight of the
origins up to index `i` (`List.findIdx` returns the list length when no
index qualifies). -/
def specFirstHit (ws : List ℚ) (x : ℚ) : ℕ :=
  (cumWeights ws).findIdx (fun c => x ≤ c)

/-! ## The inductive invariant and concrete scenario states -/

/-- The inductive invariant of the engine: runtime attack ids are
duplicate-free (`generateId` per spec section 6), a device reads `secure`
exactly when no active unblocked attack targets it, and the event log
respects its cap. -/
structure Inv (s : SimulationState) : Prop where
  nodupIds : (s.activeAttacks.map Attack.id).Nodup
  statusIff : ∀ d ∈ s.devices, d.status = STATUS.SECURE ↔
      ∀ a ∈ s.activeAttacks, a.targetDeviceId = d.id → a.blocked = true
  eventsLe : s.events.length ≤ MAX_EVENTS

/-- The status rule in the words of the specification, as a boolean check
over a whole state: a device must read `compromised` when some active
unblocked attack of critical severity targets it, `warning` when some
active unblocked attack targets it but none of critical severity, and
`secure` otherwise. -/
def statusSpecHolds (s : SimulationState) : Bool :=
  s.devices.all fun d =>
    let hit := s.activeAttacks.any fun a => a.targetDeviceId == d.id && !a.blocked
    let critHit := s.activeAttacks.any fun a =>
      a.targetDeviceId == d.id && !a.blocked && a.severity == "critical"
    if critHit then d.status == STATUS.COMPROMISED
    else if hit then d.status == STATUS.WARNING
    else d.status == STATUS.SECURE

/-- The engine state right after disabling the protocol from the initial
state. -/
def stateOff : SimulationState := toggleProtocol initialState "ev-off" 0

/-- With the protocol off, launch an unblocked critical MITM attack at
camera-01 (pick index 1 of its target pool) and then an unblocked medium
DoS attack at the same camera.  The second write downgrades the camera to
`warning` although the critical attack is still active and unblocked. -/
def stateTwoAttacks : SimulationState :=
  startAttack (startAttack stateOff ATTACK_TYPES.MITM 1 "atk-1" "ev-1" 1000)
    ATTACK_TYPES.DOS 1 "atk-2" "ev-2" 2000

/-- With the protocol off, a single unblocked DoS attack is active, so
`stats.activeThreats = 1`. -/
def stateOneThreat : SimulationState :=
  startAttack stateOff ATTACK_TYPES.DOS 0 "atk-1" "ev-1" 1000

/-- A blocked DoS attack (started while the protocol was on) together with
an unblocked brute-force attack started after disabling the protocol. -/
def stateMixed : SimulationState :=
  startAttack
    (toggleProtocol (startAttack initialState ATTACK_TYPES.DOS 0 "atk-b1" "ev-1" 0) "ev-2" 10)
    ATTACK_TYPES.BRUTE_FORCE 0 "atk-a2" "ev-3" 20

/-- The camera-01 record as it sits in the initial device list; used to
instantiate universally quantified theorems at a concrete device. -/
def cameraSecure : Device :=
  { toDeviceInfo :=
      { id := "camera-01",
        name := "Smart Camera",
        type := DEVICE_TYPES.CAMERA,
        position := [mkRat 25 10, 2, mkRat 15 10],
        description := "IP surveillance camera - entrance monitoring",
        firmware := "v1.4.0",
        protocol := "RTSP",
        vulnerabilities := ["Unencrypted video stream", "Weak authentication"],
        icon := "Camera" },
    status := STATUS.SECURE }

/-- A concrete event record used to instantiate log theorems. -/
def sampleEvent : Event :=
  { id := "ev-x",
    timestamp := 0,
    attackName := "Protocol",
    attackType := "system",
    severity := "info",
    targetDeviceId := none,
    blocked := false,
    message := "sample entry" }

/-! ## Invariant preservation -/

theorem pushEvent_length_le (e : Event) (evs : List Event) :
    (pushEvent e evs).length ≤ MAX_EVENTS := by
  simp [pushEvent]

theorem inv_init : Inv initialState := ⟨by decide, by decide, by decide⟩

theorem inv_start (s : SimulationState) (attackType : String) (pick : ℕ)
    (attackId eventId : String) (now : Int) (hinv : Inv s)
    (hfresh : ∀ a ∈ s.activeAttacks, a.id ≠ attackId) :
    Inv (startAttack s attackType pick attackId eventId now) := by
  unfold startAttack
  split
  · exact hinv
  case _ definition hfind =>
    refine ⟨?_, ?_, ?_⟩
    · show ((s.activeAttacks ++ [_]).map Attack.id).Nodup
      simp only [List.map_append, List.map_cons, List.map_nil]
      rw [List.nodup_append]
      refine ⟨hinv.nodupIds, List.nodup_singleton _, ?_⟩
      intro x hx hx'
      simp only [List.mem_singleton] at hx'
      obtain ⟨a, ha, rfl⟩ := List.mem_map.mp hx
      exact hfresh a ha hx'
    · cases hp : s.protocolEnabled with
      | true =>
        simp only [hp, if_true]
        intro d hd
        rw [hinv.statusIff d hd]
        simp only [List.forall_mem_append, List.forall_mem_singleton]
        simp
      | false =>
        simp only [hp, Bool.false_eq_true, if_false]
        intro d' hd'
        obtain ⟨d, hd, rfl⟩ := List.mem_map.mp hd'
        by_cases hdev : d.id = randomElement definition.targetDevices pick
        · rw [if_pos hdev]
          apply iff_of_false
          · split <;> simp [STATUS.COMPROMISED, STATUS.WARNING, STATUS.SECURE]
          · intro hall
            simp only [List.forall_mem_append, List.forall_mem_singleton] at hall
            have h2 := hall.2
            simp only [hdev] at h2
            simp at h2
        · rw [if_neg hdev]
          rw [hinv.statusIff d hd]
          simp only [List.forall_mem_append, List.forall_mem_singleton]
          constructor
          · intro h
            refine ⟨h, ?_⟩
            intro htgt
            exact absurd htgt.symm hdev
          · intro h
            exact h.1
    · show (pushEvent _ _).length ≤ MAX_EVENTS
      exact pushEvent_length_le _ _

theorem inv_stop (s : SimulationState) (attackId : String) (hinv : Inv s) :
    Inv (stopAttack s attackId) := by
  unfold stopAttack
  split
  · exact ⟨hinv.nodupIds, hinv.statusIff, hinv.eventsLe⟩
  case _ target hfind =>
    have htmem : target ∈ s.activeAttacks := List.mem_of_find?_eq_some hfind
    have htid : target.id = attackId := by
      have := List.find?_some hfind
      simpa using this
    have hrem : ∀ a, a ∈ s.activeAttacks.filter (fun a => a.id != attackId) ↔
        a ∈ s.activeAttacks ∧ a ≠ target := by
      intro a
      rw [List.mem_filter]
      constructor
      · rintro ⟨ha, hne⟩
        refine ⟨ha, ?_⟩
        rintro rfl
        simp [htid] at hne
      · rintro ⟨ha, hne⟩
        refine ⟨ha, ?_⟩
        simp only [bne_iff_ne, ne_eq]
        intro hid
        exact hne (List.inj_on_of_nodup_map hinv.nodupIds ha htmem (by rw [hid, htid]))
    refine ⟨?_, ?_, ?_⟩
    · show ((s.activeAttacks.filter (fun a => a.id != attackId)).map Attack.id).Nodup
      exact List.Nodup.sublist ((List.filter_sublist _).map Attack.id) hinv.nodupIds
    · show ∀ d ∈ (if _ = true then _ else s.devices), _
      split
      case _ hcond =>
        rw [Bool.and_eq_true, Bool.not_eq_true', Bool.not_eq_true'] at hcond
        obtain ⟨htb, hany⟩ := hcond
        intro d' hd'
        obtain ⟨d, hd, rfl⟩ := List.mem_map.mp hd'
        by_cases hdev : d.id = target.targetDeviceId
        · rw [if_pos hdev]
          apply iff_of_true rfl
          intro a ha htgt
          have hnp := List.any_eq_false.mp hany a ha
          rw [Bool.and_eq_true, beq_iff_eq, Bool.not_eq_true'] at hnp
          by_contra hblk
          rw [Bool.not_eq_true] at hblk
          exact hnp ⟨by rw [htgt, hdev], hblk⟩
        · rw [if_neg hdev]
          rw [hinv.statusIff d hd]
          constructor
          · intro h a ha htgt
            exact h a ((hrem a).mp ha).1 htgt
          · intro h a ha htgt
            by_cases hat : a = target
            · exfalso
              subst hat
              exact hdev (htgt.symm)
            · exact h a ((hrem a).mpr ⟨ha, hat⟩) htgt
      case _ hcond =>
        intro d hd
        rw [hinv.statusIff d hd]
        constructor
        · intro h a ha htgt
          exact h a ((hrem a).mp ha).1 htgt
        · intro hNew a ha htgt
          by_cases hat : a = target
          · subst hat
            by_cases htb : a.blocked = true
            · exact htb
            · exfalso
              rw [Bool.not_eq_true] at htb
              have hst : (s.activeAttacks.filter (fun x => x.id != attackId)).any
                  (fun x => x.targetDeviceId == a.targetDeviceId && !x.blocked) = true := by
                cases hanyv : (s.activeAttacks.filter (fun x => x.id != attackId)).any
                    (fun x => x.targetDeviceId == a.targetDeviceId && !x.blocked) with
                | true => rfl
                | false => exact absurd (by rw [htb, hanyv]; rfl) hcond
              obtain ⟨w, hw, hwp⟩ := List.any_eq_true.mp hst
              rw [Bool.and_eq_true, beq_iff_eq, Bool.not_eq_true'] at hwp
              have := hNew w hw (by rw [hwp.1, htgt])
              rw [hwp.2] at this
              exact Bool.false_ne_true this
          · exact hNew a ((hrem a).mpr ⟨ha, hat⟩) htgt
    · exact hinv.eventsLe

theorem inv_toggle (s : SimulationState) (eventId : String) (now : Int) (hinv : Inv s) :
    Inv (toggleProtocol s eventId now) := by
  unfold toggleProtocol
  cases hp : s.protocolEnabled with
  | true =>
    simp only [hp, Bool.not_true, Bool.false_eq_true, if_false]
    exact ⟨hinv.nodupIds, hinv.statusIff, pushEvent_length_le _ _⟩
  | false =>
    simp only [hp, Bool.not_false, if_true]
    refine ⟨?_, ?_, pushEvent_length_le _ _⟩
    · rw [List.map_map]
      exact hinv.nodupIds
    · intro d' hd'
      obtain ⟨d, hd, rfl⟩ := List.mem_map.mp hd'
      apply iff_of_true rfl
      intro a ha htgt
      obtain ⟨a0, ha0, rfl⟩ := List.mem_map.mp ha
      rfl

theorem inv_clear (s : SimulationState) (hinv : Inv s) : Inv (clearEvents s) :=
  ⟨hinv.nodupIds, hinv.statusIff, by simp [clearEvents, MAX_EVENTS]⟩

theorem reachable_inv {s : SimulationState} (h : Reachable s) : Inv s := by
  induction h with
  | init => exact inv_init
  | start s ty pick aid eid now hs hfresh ih => exact inv_start _ _ _ _ _ _ ih hfresh
  | stop s aid hs ih => exact inv_stop _ _ ih
  | toggle s eid now hs ih => exact inv_toggle _ _ _ ih
  | clear s hs ih => exact inv_clear _ ih

theorem reachable_stateOff : Reachable stateOff :=
  Reachable.toggle _ _ _ Reachable.init

theorem reachable_stateTwoAttacks : Reachable stateTwoAttacks := by
  apply Reachable.start _ _ _ _ _ _ ?_ ?_
  · apply Reachable.start _ _ _ _ _ _ reachable_stateOff ?_
    decide
  · decide

theorem reachable_stateOneThreat : Reachable stateOneThreat := by
  apply Reachable.start _ _ _ _ _ _ reachable_stateOff ?_
  decide

theorem reachable_stateMixed : Reachable stateMixed := by
  apply Reachable.start _ _ _ _ _ _ ?_ ?_
  · apply Reachable.toggle
    apply Reachable.start _ _ _ _ _ _ Reachable.init ?_
    decide
  · decide

/-! ## The claims -/

/-- C1, counterexample: the status-consistency rule as literally stated by
the claim fails at a reachable state.  From the initial state, disable the
protocol, launch a critical MITM attack at camera-01 and then a medium DoS
attack at the same camera: the camera now reads `warning` although an
active unblocked attack of critical severity still targets it (the source
overwrites the status with the severity of the most recent unblocked
attack and never recomputes it). -/
theorem C1_status_rule_refuted :
    ¬ (∀ s : SimulationState, Reachable s → statusSpecHolds s = true) := by
  intro h
  have := h stateTwoAttacks reachable_stateTwoAttacks
  exact absurd this (by decide)

/-- C1, amended: at every reachable state, a device reads `secure` if and
only if no active unblocked attack targets it (so `warning` or
`compromised` exactly when some active unblocked attack targets it); which
of the two non-secure statuses it carries is determined by the severity of
the unblocked attack that last updated the device, not by the strongest
currently active one. -/
theorem C1_secure_iff_no_unblocked_attack (s : SimulationState) (hs : Reachable s)
    (d : Device) (hd : d ∈ s.devices) :
    d.status = STATUS.SECURE ↔
      ∀ a ∈ s.activeAttacks, a.targetDeviceId = d.id → a.blocked = true :=
  (reachable_inv hs).statusIff d hd

/-- C1, witness: the amended theorem instantiated at the initial state and
its camera device. -/
theorem C1_secure_iff_no_unblocked_attack_witness :
    cameraSecure ∈ initialState.devices ∧
    (cameraSecure.status = STATUS.SECURE ↔
      ∀ a ∈ initialState.activeAttacks, a.targetDeviceId = cameraSecure.id → a.blocked = true) :=
  ⟨by decide,
   C1_secure_iff_no_unblocked_attack initialState Reachable.init cameraSecure (by decide)⟩

/-- C2: from any state with the protocol disabled, one `toggleProtocol`
call enables the flag, zeroes `stats.activeThreats`, sets every device to
`secure` and marks every active attack as blocked. -/
theorem C2_toggle_on_convergence (s : SimulationState) (eventId : String) (now : Int)
    (h : s.protocolEnabled = false) :
    (toggleProtocol s eventId now).protocolEnabled = true ∧
    (toggleProtocol s eventId now).stats.activeThreats = 0 ∧
    (∀ d ∈ (toggleProtocol s eventId now).devices, d.status = STATUS.SECURE) ∧
    (∀ a ∈ (toggleProtocol s eventId now).activeAttacks, a.blocked = true) := by
  unfold toggleProtocol
  simp only [h, Bool.not_false, if_true]
  refine ⟨trivial, trivial, ?_, ?_⟩
  · intro d hd
    obtain ⟨d0, _, rfl⟩ := List.mem_map.mp hd
    rfl
  · intro a ha
    obtain ⟨a0, _, rfl⟩ := List.mem_map.mp ha
    rfl

/-- C2, witness: the convergence theorem instantiated at the state with
the protocol off and one unblocked DoS attack active. -/
theorem C2_toggle_on_convergence_witness :
    stateOneThreat.protocolEnabled = false ∧
    ((toggleProtocol stateOneThreat "ev-on" 5000).protocolEnabled = true ∧
     (toggleProtocol stateOneThreat "ev-on" 5000).stats.activeThreats = 0 ∧
     (∀ d ∈ (toggleProtocol stateOneThreat "ev-on" 5000).devices, d.status = STATUS.SECURE) ∧
     (∀ a ∈ (toggleProtocol stateOneThreat "ev-on" 5000).activeAttacks, a.blocked = true)) :=
  ⟨by decide, C2_toggle_on_convergence stateOneThreat "ev-on" 5000 (by decide)⟩

/-- C3: the claim says a stale id passed to `stopAttack` leaves the whole
state unchanged, but the source decrements `stats.activeThreats` outside
the not-found guard.  At a reachable state with one active unblocked
attack (`activeThreats = 1`), stopping a nonexistent id keeps the attack
list, devices, events and window unchanged yet drops `activeThreats` to 0;
a second `stopAttack` with an already-removed id likewise has an effect. -/
theorem C3_stale_stop_mutates_stats :
    Reachable stateOneThreat ∧
    (∀ a ∈ stateOneThreat.activeAttacks, a.id ≠ "no-such-id") ∧
    stateOneThreat.stats.activeThreats = 1 ∧
    (stopAttack stateOneThreat "no-such-id").stats.activeThreats = 0 ∧
    (stopAttack stateOneThreat "no-such-id").activeAttacks = stateOneThreat.activeAttacks ∧
    (stopAttack stateOneThreat "no-such-id").devices = stateOneThreat.devices ∧
    (stopAttack stateOneThreat "no-such-id").events = stateOneThreat.events ∧
    (stopAttack stateOneThreat "no-such-id").attackTimestamps = stateOneThreat.attackTimestamps :=
  ⟨reachable_stateOneThreat, by decide⟩

/-- C4: the claim says `stats.activeThreats` always equals the number of
active unblocked attacks, in particular across `stopAttack` of a blocked
attack.  The source decrements the counter for every removed attack,
blocked or not: from a reachable state with one blocked and one unblocked
attack (counter 1, matching), stopping the blocked one leaves one
unblocked attack active but a counter of 0. -/
theorem C4_stop_blocked_attack_desyncs_count :
    Reachable (stopAttack stateMixed "atk-b1") ∧
    (stateMixed.activeAttacks.filter (fun a => !a.blocked)).length =
      stateMixed.stats.activeThreats ∧
    ((stopAttack stateMixed "atk-b1").activeAttacks.filter (fun a => !a.blocked)).length = 1 ∧
    (stopAttack stateMixed "atk-b1").stats.activeThreats = 0 :=
  ⟨Reachable.stop _ _ reachable_stateMixed, by decide⟩

/-- C5: whenever `startAttack` recomputes `stats.attacksPerMinute` (that
is, whenever the attack type is known), the value equals the number of
recorded window timestamps `t` with `now - t` strictly below 60000 ms,
the stored window is exactly that filtered list, every kept timestamp is
strictly younger than 60 seconds, and the (unused) `refreshStats` helper
applies the same strict-window rule. -/
theorem C5_rate_window_strict (s : SimulationState) (attackType : String) (pick : ℕ)
    (attackId eventId : String) (now : Int)
    (h : (attackDefinitions.find? (fun a => a.id == attackType)).isSome) :
    (startAttack s attackType pick attackId eventId now).stats.attacksPerMinute =
      ((s.attackTimestamps ++ [now]).filter (fun t => now - t < 60000)).length ∧
    (startAttack s attackType pick attackId eventId now).attackTimestamps =
      (s.attackTimestamps ++ [now]).filter (fun t => now - t < 60000) ∧
    (∀ t ∈ (startAttack s attackType pick attackId eventId now).attackTimestamps,
      now - t < 60000) ∧
    (∀ (attacks : List Attack) (total totalBlocked : ℕ) (window : List Int) (m : Int),
      (refreshStats attacks total totalBlocked window m).1.attacksPerMinute =
        (window.filter (fun t => m - t < 60000)).length) := by
  obtain ⟨defn, hfind⟩ := Option.isSome_iff_exists.mp h
  unfold startAttack
  rw [hfind]
  have hfeq : (s.attackTimestamps ++ [now]).filter (fun t => decide (t > now - 60000)) =
      (s.attackTimestamps ++ [now]).filter (fun t => decide (now - t < 60000)) := by
    apply List.filter_congr
    intro t ht
    rw [decide_eq_decide]
    omega
  refine ⟨?_, ?_, ?_, ?_⟩
  · show ((s.attackTimestamps ++ [now]).filter (fun t => decide (t > now - 60000))).length = _
    rw [hfeq]
  · show (s.attackTimestamps ++ [now]).filter (fun t => decide (t > now - 60000)) = _
    exact hfeq
  · intro t ht
    have ht' : t ∈ (s.attackTimestamps ++ [now]).filter (fun t => decide (t > now - 60000)) := ht
    have h2 := of_decide_eq_true (List.mem_filter.mp ht').2
    omega
  · intro attacks total totalBlocked window m
    rfl

/-- C5, witness: the rate-window theorem instantiated at the initial state
for a DoS attack at time 1000. -/
theorem C5_rate_window_strict_witness :
    (attackDefinitions.find? (fun a => a.id == ATTACK_TYPES.DOS)).isSome = true ∧
    ((startAttack initialState ATTACK_TYPES.DOS 0 "atk-1" "ev-1" 1000).stats.attacksPerMinute =
      ((initialState.attackTimestamps ++ [1000]).filter (fun t => 1000 - t < 60000)).length ∧
    (startAttack initialState ATTACK_TYPES.DOS 0 "atk-1" "ev-1" 1000).attackTimestamps =
      (initialState.attackTimestamps ++ [1000]).filter (fun t => 1000 - t < 60000) ∧
    (∀ t ∈ (startAttack initialState ATTACK_TYPES.DOS 0 "atk-1" "ev-1" 1000).attackTimestamps,
      (1000 : Int) - t < 60000) ∧
    (∀ (attacks : List Attack) (total totalBlocked : ℕ) (window : List Int) (m : Int),
      (refreshStats attacks total totalBlocked window m).1.attacksPerMinute =
        (window.filter (fun t => m - t < 60000)).length)) :=
  ⟨by decide, C5_rate_window_strict initialState ATTACK_TYPES.DOS 0 "atk-1" "ev-1" 1000 (by decide)⟩

/-- C6: at every reachable state the event log holds at most `MAX_EVENTS`
(50) entries; pushing places the new entry at the head (newest first),
never exceeds the cap, and on a full log evicts exactly the oldest (last)
entry. -/
theorem C6_event_log_cap (s : SimulationState) (e : Event) (hs : Reachable s) :
    s.events.length ≤ MAX_EVENTS ∧
    (pushEvent e s.events).head? = some e ∧
    (pushEvent e s.events).length ≤ MAX_EVENTS ∧
    (s.events.length = MAX_EVENTS → pushEvent e s.events = e :: s.events.dropLast) := by
  refine ⟨(reachable_inv hs).eventsLe, rfl, pushEvent_length_le _ _, ?_⟩
  intro hlen
  show (e :: s.events).take 50 = e :: s.events.dropLast
  rw [show (50 : ℕ) = 49 + 1 from rfl, List.take_succ_cons, List.dropLast_eq_take, hlen,
    show MAX_EVENTS - 1 = 49 from rfl]

/-- C6, witness: the log-cap theorem instantiated at the initial state and
a concrete event. -/
theorem C6_event_log_cap_witness :
    initialState.events.length ≤ MAX_EVENTS ∧
    (pushEvent sampleEvent initialState.events).head? = some sampleEvent ∧
    (pushEvent sampleEvent initialState.events).length ≤ MAX_EVENTS ∧
    (initialState.events.length = MAX_EVENTS →
      pushEvent sampleEvent initialState.events = sampleEvent :: initialState.events.dropLast) :=
  C6_event_log_cap initialState sampleEvent Reachable.init

/-- C7: `startAttack` with an attack type matching no registry definition
returns the state wholly unchanged (the early `return` fires before any
mutation). -/
theorem C7_unknown_type_noop (s : SimulationState) (attackType : String) (pick : ℕ)
    (attackId eventId : String) (now : Int)
    (h : ∀ d ∈ attackDefinitions, d.id ≠ attackType) :
    startAttack s attackType pick attackId eventId now = s := by
  unfold startAttack
  have hnone : attackDefinitions.find? (fun a => a.id == attackType) = none := by
    rw [List.find?_eq_none]
    intro a ha
    simp [h a ha]
  rw [hnone]

/-- C7, witness: the no-op theorem instantiated at the initial state with
an unknown attack type. -/
theorem C7_unknown_type_noop_witness :
    (∀ d ∈ attackDefinitions, d.id ≠ "quantum_hack") ∧
    startAttack initialState "quantum_hack" 3 "atk-9" "ev-9" 123 = initialState :=
  ⟨by decide, C7_unknown_type_noop initialState "quantum_hack" 3 "atk-9" "ev-9" 123 (by decide)⟩

/-- C8: reading the distribution layer before any provider has published
(the context cell still holds its null default) throws the descriptive
integration error naming the missing provider wrap, and never yields a
value; once a value is published, the read returns it unchanged. -/
theorem C8_read_before_publish_throws (α : Type) :
    useSimulationContext (none : Option α) =
      Except.error "useSimulationContext must be used within a <SimulationProvider>. Wrap your component tree with <Layout> or <SimulationProvider>." ∧
    (∀ v : α, useSimulationContext (some v) = Except.ok v) :=
  ⟨rfl, fun _ => rfl⟩

/-- C10: the freshly initialised engine has the protocol enabled, exactly
the six registry devices all reading `secure`, no active attacks, an empty
event log, an empty rolling window, and all four stats at zero. -/
theorem C10_initial_state :
    initialState.protocolEnabled = true ∧
    initialState.devices.length = 6 ∧
    initialState.devices.map Device.toDeviceInfo = devices ∧
    (∀ d ∈ initialState.devices, d.status = STATUS.SECURE) ∧
    initialState.activeAttacks = [] ∧
    initialState.events = [] ∧
    initialState.attackTimestamps = [] ∧
    initialState.stats =
      { totalAttacks := 0, blockedAttacks := 0, activeThreats := 0, attacksPerMinute := 0 } := by
  decide

/-! ## The roulette draw: auxiliary lemmas -/

theorem rouletteLoop_eq_get? (origins : List AttackOrigin) (roll : ℚ) :
    rouletteLoop origins roll =
      origins.get? (rouletteIdx (origins.map AttackOrigin.weight) roll) := by
  induction origins generalizing roll with
  | nil => rfl
  | cons o os ih =>
    by_cases h : roll - o.weight ≤ 0
    · simp [rouletteLoop, rouletteIdx, h]
    · simp only [rouletteLoop, rouletteIdx, List.map_cons, if_neg h, List.get?_cons_succ]
      exact ih _

theorem rouletteIdx_lt_length (ws : List ℚ) (roll : ℚ) (hne : ws ≠ [])
    (h : roll ≤ ws.sum) : rouletteIdx ws roll < ws.length := by
  induction ws generalizing roll with
  | nil => exact absurd rfl hne
  | cons w ws ih =>
    by_cases hc : roll - w ≤ 0
    · simp [rouletteIdx, hc]
    · cases ws with
      | nil =>
        exfalso
        apply hc
        simp only [List.sum_cons, List.sum_nil, add_zero] at h
        linarith
      | cons w2 ws2 =>
        simp only [rouletteIdx, if_neg hc, List.length_cons]
        apply Nat.succ_lt_succ
        apply ih _ (by simp)
        simp only [List.sum_cons] at h ⊢
        linarith

theorem rouletteIdx_first_le (ws : List ℚ) (roll : ℚ)
    (h : rouletteIdx ws roll < ws.length) :
    roll ≤ (ws.take (rouletteIdx ws roll + 1)).sum := by
  induction ws generalizing roll with
  | nil => simp at h
  | cons w ws ih =>
    by_cases hc : roll - w ≤ 0
    · simp only [rouletteIdx, if_pos hc, List.take_succ_cons, List.take_zero,
        List.sum_cons, List.sum_nil, add_zero]
      linarith
    · simp only [rouletteIdx, if_neg hc, List.length_cons] at h
      have h' := Nat.lt_of_succ_lt_succ h
      have := ih _ h'
      simp only [rouletteIdx, if_neg hc, List.take_succ_cons, List.sum_cons]
      linarith

theorem rouletteIdx_earlier_lt (ws : List ℚ) (roll : ℚ) (j : ℕ)
    (hj : j < rouletteIdx ws roll) :
    (ws.take (j + 1)).sum < roll := by
  induction ws generalizing roll j with
  | nil => simp [rouletteIdx] at hj
  | cons w ws ih =>
    by_cases hc : roll - w ≤ 0
    · simp [rouletteIdx, hc] at hj
    · simp only [rouletteIdx, if_neg hc] at hj
      cases j with
      | zero =>
        simp only [List.take_succ_cons, List.take_zero, List.sum_cons, List.sum_nil, add_zero]
        linarith
      | succ j2 =>
        have := ih _ j2 (Nat.lt_of_succ_lt_succ hj)
        simp only [List.take_succ_cons, List.sum_cons]
        linarith

theorem rouletteIdx_min (ws : List ℚ) (roll : ℚ) (k : ℕ)
    (h : roll ≤ (ws.take (k + 1)).sum) :
    rouletteIdx ws roll ≤ k := by
  induction ws generalizing roll k with
  | nil => simp [rouletteIdx]
  | cons w ws ih =>
    by_cases hc : roll - w ≤ 0
    · simp [rouletteIdx, hc]
    · cases k with
      | zero =>
        exfalso
        apply hc
        simp only [List.take_succ_cons, List.take_zero, List.sum_cons, List.sum_nil,
          add_zero] at h
        linarith
      | succ k2 =>
        simp only [rouletteIdx, if_neg hc]
        apply Nat.succ_le_succ
        apply ih
        simp only [List.take_succ_cons, List.sum_cons] at h
        linarith

theorem cumWeights_cons (w : ℚ) (ws : List ℚ) :
    cumWeights (w :: ws) = w :: (cumWeights ws).map (fun c => w + c) := by
  unfold cumWeights
  rw [List.length_cons, List.range_succ_eq_map, List.map_cons, List.map_map, List.map_map]
  simp [Function.comp, List.take_succ_cons, List.sum_cons]

theorem findIdx_map {α β : Type} (f : α → β) (l : List α) (p : β → Bool) :
    (l.map f).findIdx p = l.findIdx (p ∘ f) := by
  induction l with
  | nil => rfl
  | cons a l ih =>
    rw [List.map_cons, List.findIdx_cons, List.findIdx_cons, ih]
    rfl

theorem specFirstHit_cons (w : ℚ) (ws : List ℚ) (x : ℚ) :
    specFirstHit (w :: ws) x = if x ≤ w then 0 else specFirstHit ws (x - w) + 1 := by
  unfold specFirstHit
  rw [cumWeights_cons, List.findIdx_cons]
  by_cases h : x ≤ w
  · simp [h]
  · rw [findIdx_map]
    have hp : ((fun c => decide (x ≤ c)) ∘ fun c => w + c) = fun c => decide (x - w ≤ c) := by
      funext c
      simp only [Function.comp_apply]
      rw [decide_eq_decide]
      constructor <;> intro <;> linarith
    rw [hp]
    simp [h, specFirstHit]

theorem rouletteIdx_eq_specFirstHit (ws : List ℚ) (x : ℚ) :
    rouletteIdx ws x = specFirstHit ws x := by
  induction ws generalizing x with
  | nil => rfl
  | cons w ws ih =>
    rw [specFirstHit_cons]
    by_cases h : x - w ≤ 0
    · rw [if_pos (by linarith)]
      simp [rouletteIdx, h]
    · rw [if_neg (by intro hc; exact h (by linarith))]
      simp only [rouletteIdx, if_neg h]
      rw [ih]

theorem sum_take_mono (ws : List ℚ) (hw : ∀ w ∈ ws, 0 ≤ w) {m n : ℕ} (h : m ≤ n) :
    (ws.take m).sum ≤ (ws.take n).sum := by
  have hn : n = m + (n - m) := (Nat.add_sub_cancel' h).symm
  rw [hn, List.take_add, List.sum_append]
  have h0 : 0 ≤ ((ws.drop m).take (n - m)).sum := by
    apply List.sum_nonneg
    intro x hx
    exact hw x (List.drop_subset m ws (List.take_subset _ _ hx))
  linarith

/-- C9: the cumulative-weight roulette.  Modelling the draw as `r` in
`[0, 1)`: (1) the source returns exactly the first origin whose cumulative
weight reaches `r` times the total weight — the first-hit rule of the
spec, `specFirstHit` — and that index is in range; (2) for every draw the
result is an element of the list; (3) index `i` is selected precisely when
the scaled roll lies in the interval from the cumulative weight before `i`
(exclusive; inclusive of 0 at index 0) up to the cumulative weight through
`i` (inclusive); (4) that interval has length equal to the weight at `i`,
so under a uniform draw each origin is selected with probability equal to
its weight divided by the total weight. -/
theorem C9_weighted_origin_roulette (origins : List AttackOrigin)
    (hne : origins ≠ []) (hw : ∀ o ∈ origins, 0 < o.weight) :
    (∀ r : ℚ, 0 ≤ r → r < 1 →
      specFirstHit (origins.map AttackOrigin.weight)
          (r * (origins.map AttackOrigin.weight).sum) < origins.length ∧
      weightedRandomOrigin origins r =
        origins.get? (specFirstHit (origins.map AttackOrigin.weight)
          (r * (origins.map AttackOrigin.weight).sum))) ∧
    (∀ r : ℚ, ∃ o, weightedRandomOrigin origins r = some o ∧ o ∈ origins) ∧
    (∀ i, i < origins.length → ∀ r : ℚ, 0 ≤ r → r < 1 →
      (specFirstHit (origins.map AttackOrigin.weight)
          (r * (origins.map AttackOrigin.weight).sum) = i ↔
        r * (origins.map AttackOrigin.weight).sum ≤
            ((origins.map AttackOrigin.weight).take (i + 1)).sum ∧
        (i = 0 ∨ ((origins.map AttackOrigin.weight).take i).sum <
            r * (origins.map AttackOrigin.weight).sum))) ∧
    (∀ i, (hi : i < origins.length) →
      ((origins.map AttackOrigin.weight).take (i + 1)).sum -
          ((origins.map AttackOrigin.weight).take i).sum =
        (origins.get ⟨i, hi⟩).weight) := by
  have hws_ne : origins.map AttackOrigin.weight ≠ [] := by
    simpa using hne
  have hw0 : ∀ w ∈ origins.map AttackOrigin.weight, 0 ≤ w := by
    intro w hmem
    obtain ⟨o, ho, rfl⟩ := List.mem_map.mp hmem
    exact le_of_lt (hw o ho)
  have hW : 0 < (origins.map AttackOrigin.weight).sum := by
    apply List.sum_pos
    · intro w hmem
      obtain ⟨o, ho, rfl⟩ := List.mem_map.mp hmem
      exact hw o ho
    · exact hws_ne
  have hidxlt : ∀ r : ℚ, r < 1 →
      rouletteIdx (origins.map AttackOrigin.weight)
        (r * (origins.map AttackOrigin.weight).sum) < origins.length := by
    intro r hr1
    have hrW : r * (origins.map AttackOrigin.weight).sum ≤
        (origins.map AttackOrigin.weight).sum := by
      nlinarith
    have := rouletteIdx_lt_length (origins.map AttackOrigin.weight) _ hws_ne hrW
    rwa [List.length_map] at this
  refine ⟨?_, ?_, ?_, ?_⟩
  · intro r _ hr1
    rw [← rouletteIdx_eq_specFirstHit]
    refine ⟨hidxlt r hr1, ?_⟩
    show (match rouletteLoop origins (r * (origins.map AttackOrigin.weight).sum) with
      | some origin => some origin
      | none => origins.getLast?) = _
    rw [rouletteLoop_eq_get?, List.get?_eq_get (hidxlt r hr1)]
  · intro r
    cases hres : rouletteLoop origins (r * (origins.map AttackOrigin.weight).sum) with
    | some o =>
      refine ⟨o, ?_, ?_⟩
      · show (match rouletteLoop origins (r * (origins.map AttackOrigin.weight).sum) with
          | some origin => some origin
          | none => origins.getLast?) = _
        rw [hres]
      · have h2 := rouletteLoop_eq_get? origins (r * (origins.map AttackOrigin.weight).sum)
        rw [hres] at h2
        exact List.get?_mem h2.symm
    | none =>
      refine ⟨origins.getLast hne, ?_, List.getLast_mem hne⟩
      show (match rouletteLoop origins (r * (origins.map AttackOrigin.weight).sum) with
        | some origin => some origin
        | none => origins.getLast?) = _
      rw [hres, List.getLast?_eq_getLast origins hne]
  · intro i hi r hr0 hr1
    rw [← rouletteIdx_eq_specFirstHit]
    constructor
    · intro heq
      refine ⟨?_, ?_⟩
      · have hlen : rouletteIdx (origins.map AttackOrigin.weight)
            (r * (origins.map AttackOrigin.weight).sum) <
            (origins.map AttackOrigin.weight).length := by
          rw [List.length_map]
          exact hidxlt r hr1
        have := rouletteIdx_first_le (origins.map AttackOrigin.weight) _ hlen
        rwa [heq] at this
      · cases i with
        | zero => exact Or.inl rfl
        | succ j =>
          refine Or.inr ?_
          have := rouletteIdx_earlier_lt (origins.map AttackOrigin.weight)
            (r * (origins.map AttackOrigin.weight).sum) j (by rw [heq]; exact Nat.lt_succ_self j)
          exact this
    · rintro ⟨hle, hor⟩
      have hmin := rouletteIdx_min (origins.map AttackOrigin.weight) _ i hle
      rcases hor with rfl | hlt'
      · exact Nat.le_zero.mp hmin
      · by_contra hne'
        have hlt2 : rouletteIdx (origins.map AttackOrigin.weight)
            (r * (origins.map AttackOrigin.weight).sum) < i := lt_of_le_of_ne hmin hne'
        have hidxlen : rouletteIdx (origins.map AttackOrigin.weight)
            (r * (origins.map AttackOrigin.weight).sum) <
            (origins.map AttackOrigin.weight).length := by
          rw [List.length_map]
          exact lt_trans hlt2 hi
        have h1 := rouletteIdx_first_le (origins.map AttackOrigin.weight) _ hidxlen
        have h2 : ((origins.map AttackOrigin.weight).take
            (rouletteIdx (origins.map AttackOrigin.weight)
              (r * (origins.map AttackOrigin.weight).sum) + 1)).sum ≤
            ((origins.map AttackOrigin.weight).take i).sum :=
          sum_take_mono _ hw0 (Nat.succ_le_of_lt hlt2)
        linarith
  · intro i hi
    have hi' : i < (origins.map AttackOrigin.weight).length := by
      rw [List.length_map]
      exact hi
    rw [List.sum_take_succ _ i hi']
    simp only [List.getElem_map, List.get_eq_getElem]
    ring

/-- C9, witness: the roulette theorem instantiated at the static
`attackOrigins` registry (13 origins, all weights positive). -/
theorem C9_weighted_origin_roulette_witness :
    (attackOrigins ≠ [] ∧ ∀ o ∈ attackOrigins, 0 < o.weight) ∧
    ((∀ r : ℚ, 0 ≤ r → r < 1 →
      specFirstHit (attackOrigins.map AttackOrigin.weight)
          (r * (attackOrigins.map AttackOrigin.weight).sum) < attackOrigins.length ∧
      weightedRandomOrigin attackOrigins r =
        attackOrigins.get? (specFirstHit (attackOrigins.map AttackOrigin.weight)
          (r * (attackOrigins.map AttackOrigin.weight).sum))) ∧
    (∀ r : ℚ, ∃ o, weightedRandomOrigin attackOrigins r = some o ∧ o ∈ attackOrigins) ∧
    (∀ i, i < attackOrigins.length → ∀ r : ℚ, 0 ≤ r → r < 1 →
      (specFirstHit (attackOrigins.map AttackOrigin.weight)
          (r * (attackOrigins.map AttackOrigin.weight).sum) = i ↔
        r * (attackOrigins.map AttackOrigin.weight).sum ≤
            ((attackOrigins.map AttackOrigin.weight).take (i + 1)).sum ∧
        (i = 0 ∨ ((attackOrigins.map AttackOrigin.weight).take i).sum <
            r * (attackOrigins.map AttackOrigin.weight).sum))) ∧
    (∀ i, (hi : i < attackOrigins.length) →
      ((attackOrigins.map AttackOrigin.weight).take (i + 1)).sum -
          ((attackOrigins.map AttackOrigin.weight).take i).sum =
        (attackOrigins.get ⟨i, hi⟩).weight)) :=
  ⟨⟨by decide, by decide⟩, C9_weighted_origin_roulette attackOrigins (by decide) (by decide)⟩

end IotSim
